import Mathlib

/-!
Shallow embedding of the sprint-reporting and ticket-suggestion logic of the
repository (`mid_sprint_report.py`, `ai_ticket_suggester.py`), together with
theorems settling the specification claims about that logic.

Modelling conventions:
* Python `float` values (story points, percentages, scores) are modelled as
  exact rationals (`ℚ`); `round(x)` / `round(x, 1)` are modelled by
  round-half-to-even on `ℚ` (`pyRound` / `round1`), matching CPython's
  behaviour on exactly-representable values.
* `datetime` values are modelled as integer Unix timestamps in seconds;
  `timedelta.days` is floor division of the difference by 86400 (`Int.fdiv`),
  exactly as CPython computes it.
* Python `str.lower()` is modelled ASCII-only (`lower_string`); all strings
  appearing in the claims are ASCII.
* Jira issue JSON dictionaries are modelled by the `Issue` / `Fields` types
  below; the `Option` fields collapse "key absent", "value null" and
  "value of malformed type" into the single behaviour the Python code gives
  them (documented at each field).
-/

/-- ASCII lowercase of a single character, as Python's `str.lower` acts on
ASCII input. -/
def lower_char (c : Char) : Char :=
  if 65 ≤ c.toNat ∧ c.toNat ≤ 90 then Char.ofNat (c.toNat + 32) else c

/-- ASCII lowercase of a string (model of Python `str.lower()`). -/
def lower_string (s : String) : String := ⟨s.data.map lower_char⟩

/-- Contiguous-sublist test on lists (model of Python's `needle in hay` for
strings). -/
def is_sub [BEq α] (needle : List α) : List α → Bool
  | [] => needle.isEmpty
  | a :: as => needle.isPrefixOf (a :: as) || is_sub needle as

/-- Python `needle in hay` on strings: substring containment. -/
def str_contains (hay needle : String) : Bool := is_sub needle.data hay.data

/-- Floor of a rational as CPython's `math.floor`; computable by the kernel. -/
def pyFloor (q : ℚ) : ℤ := Int.fdiv q.num q.den

lemma pyFloor_eq_floor (q : ℚ) : pyFloor q = ⌊q⌋ := by
  rw [pyFloor, Int.fdiv_eq_ediv _ (by exact_mod_cast Nat.zero_le q.den), Rat.floor_def]

/-- Python `round(x)`: round half to even (banker's rounding) to an integer. -/
def pyRound (x : ℚ) : ℤ :=
  let f := pyFloor x
  let r := x - f
  if r < 1/2 then f
  else if 1/2 < r then f + 1
  else if f % 2 = 0 then f else f + 1

/-- Python `round(x, 1)`: round half to even to one decimal place. -/
def round1 (x : ℚ) : ℚ := (pyRound (x * 10) : ℚ) / 10

lemma pyRound_bounds (x : ℚ) : x - 1/2 ≤ (pyRound x : ℚ) ∧ (pyRound x : ℚ) ≤ x + 1/2 := by
  have h1 : ((pyFloor x : ℤ) : ℚ) ≤ x := by
    rw [pyFloor_eq_floor]; exact_mod_cast Int.floor_le x
  have h2 : x < ((pyFloor x : ℤ) : ℚ) + 1 := by
    rw [pyFloor_eq_floor]; exact_mod_cast Int.lt_floor_add_one x
  simp only [pyRound]
  split_ifs with hc1 hc2 hc3 <;> constructor <;> push_cast <;> linarith

lemma pyRound_le_of_le {x : ℚ} {n : ℤ} (h : x ≤ (n : ℚ)) : pyRound x ≤ n := by
  have hb := (pyRound_bounds x).2
  have : (pyRound x : ℚ) < (n : ℚ) + 1 := by linarith
  exact_mod_cast Int.lt_add_one_iff.mp (by exact_mod_cast this)

lemma le_pyRound_of_le {x : ℚ} {n : ℤ} (h : (n : ℚ) ≤ x) : n ≤ pyRound x := by
  have hb := (pyRound_bounds x).1
  have : (n : ℚ) - 1 < (pyRound x : ℚ) := by linarith
  have h2 : n - 1 < pyRound x := by exact_mod_cast this
  omega

lemma pyRound_intCast (n : ℤ) : pyRound ((n : ℚ)) = n := by
  have h1 : pyRound ((n : ℚ)) ≤ n := pyRound_le_of_le (le_refl _)
  have h2 : n ≤ pyRound ((n : ℚ)) := le_pyRound_of_le (le_refl _)
  omega

lemma round1_bounds (x : ℚ) : x - 1/20 ≤ round1 x ∧ round1 x ≤ x + 1/20 := by
  have hb := pyRound_bounds (x * 10)
  unfold round1
  constructor <;> [linarith [hb.1]; linarith [hb.2]]

lemma round1_intCast (n : ℤ) : round1 ((n : ℚ)) = (n : ℚ) := by
  unfold round1
  have : ((n : ℚ)) * 10 = ((n * 10 : ℤ) : ℚ) := by push_cast; ring
  rw [this, pyRound_intCast]
  push_cast; ring

lemma round1_le_of_le {x : ℚ} {n : ℤ} (h : x ≤ (n : ℚ)) : round1 x ≤ (n : ℚ) := by
  unfold round1
  have h10 : x * 10 ≤ ((n * 10 : ℤ) : ℚ) := by push_cast; linarith
  have := pyRound_le_of_le h10
  have hc : (pyRound (x * 10) : ℚ) ≤ ((n * 10 : ℤ) : ℚ) := by exact_mod_cast this
  push_cast at hc ⊢
  linarith

/-! ## Data model for Jira issues (`mid_sprint_report.py`) -/

/-- The readable content of an issue's `fields` dictionary.

* `statusCategoryKey`: `fields["status"]["statusCategory"]["key"]`; `none`
  models any shape on which the chained lookup raises (missing or null
  status/statusCategory/key), which `_status_category` turns into
  `"unknown"`.
* `statusName`: `fields["status"]["name"]`; `none` models a missing status
  dictionary or missing name, which the aggregation reads as `""`.
* `labels`: `fields.get("labels", [])`; a non-list value is coerced to `[]`
  by the code, so it is modelled as the empty list.
* `flagged`: truthiness of `fields.get("flagged", False)`.
* `priorityName`: `fields["priority"]["name"]`; `none` models a missing or
  null priority object or missing name, read as `"Medium"`.
* `hasAssignee`: truthiness of `fields.get("assignee")`.
* `storyPoints`: the story-points custom field; `none` models a missing,
  null or non-numeric value, read as `0.0`.
* `created`: creation timestamp in seconds; `none` models a missing or
  unparseable value, for which `_get_issue_age_days` returns `0`. -/
structure Fields where
  statusCategoryKey : Option String
  statusName : Option String
  labels : List String
  flagged : Bool
  priorityName : Option String
  hasAssignee : Bool
  storyPoints : Option ℚ
  created : Option ℤ
  key : String
deriving DecidableEq

/-- One entry of the issue list handed to the aggregation functions.

* `noneEntry`: `None`, a non-dict value, or an empty dict — skipped by
  `compute_metrics` (guard on line 431) and by `detect_risks` (guard on
  line 245, where an empty dict is falsy).
* `fieldsNone`: a dict whose `"fields"` key is present but null — skipped by
  `compute_metrics`; `detect_risks` raises `AttributeError` on it at the
  unguarded `issue.get("fields", {}).get("assignee")`.
* `missingFields`: a non-empty dict with no `"fields"` key — skipped by
  `compute_metrics`; processed by `detect_risks` with default readings of
  every field.
* `mk f`: a dict with a non-null `"fields"` dict, readable as `f`. -/
inductive Issue where
  | noneEntry : Issue
  | fieldsNone : Issue
  | missingFields : Issue
  | mk : Fields → Issue
deriving DecidableEq

/-- Field view used when `detect_risks` processes an entry that has no
`fields` dictionary: every lookup takes its default. -/
def empty_fields : Fields := ⟨none, none, [], false, none, false, none, none, ""⟩

/-- Embedding of `_status_category` (line 183): lowercased status-category key, or
`"unknown"` when the chained lookup fails. -/
def status_category (f : Fields) : String :=
  match f.statusCategoryKey with
  | some k => lower_string k
  | none => "unknown"

/-- Embedding of `_story_points` (line 190): the story-points field, defaulting to 0. -/
def story_points (f : Fields) : ℚ := f.storyPoints.getD 0

/-- The `get_priority` helpers (lines 227 and 417): priority name,
defaulting to `"Medium"`. -/
def get_priority (f : Fields) : String := f.priorityName.getD "Medium"

/-- Embedding of `_get_issue_age_days` (line 198): days since creation, or 0 when the
creation date is unavailable. -/
def issue_age_days (now : ℤ) (f : Fields) : ℤ :=
  match f.created with
  | some c => Int.fdiv (now - c) 86400
  | none => 0

/-- Embedding of `(sprint_end - now).days if sprint_end else 999`, as computed at
line 215 and line 414. -/
def sprint_days_left (sprint_end : Option ℤ) (now : ℤ) : ℤ :=
  match sprint_end with
  | some e => Int.fdiv (e - now) 86400
  | none => 999

/-- The blocked test inlined in the `compute_metrics` loop (lines 455-461):
flagged, or status name containing "blocked", or a label equal to
"blocked", all case-insensitively. -/
def compute_is_blocked (f : Fields) : Bool :=
  f.flagged || str_contains (lower_string (f.statusName.getD "")) "blocked"
    || f.labels.any (fun l => lower_string l == "blocked")

/-- Embedding of `is_blocked` inside `detect_risks` (lines 234-242); any exception while
reading the fields yields `False`, which is what a `fieldsNone` entry and
an entry without a fields dict produce. -/
def is_blocked : Issue → Bool
  | .mk f => f.flagged || str_contains (lower_string (f.statusName.getD "")) "blocked"
      || f.labels.any (fun l => lower_string l == "blocked")
  | _ => false

/-- The fields of the entries that `compute_metrics` actually processes
(everything its line-431 guard does not skip), in list order. -/
def valid_fields : List Issue → List Fields
  | [] => []
  | .mk f :: rest => f :: valid_fields rest
  | _ :: rest => valid_fields rest

/-! ## `compute_metrics` (lines 406-498) -/

/-- Accumulator of the `compute_metrics` loop: the six issue buckets and
the four story-point sums. -/
structure MState where
  done : List Fields
  in_prog : List Fields
  todo : List Fields
  blocked : List Fields
  at_risk : List Fields
  high_priority_todo : List Fields
  total_points : ℚ
  done_points : ℚ
  in_prog_points : ℚ
  todo_points : ℚ
deriving DecidableEq

/-- One iteration of the `compute_metrics` loop body (lines 434-462) on a
processed issue.  The `if/elif/else` chain over the status category is
written as three mutually exclusive guards. -/
def metrics_step (days_left : ℤ) (f : Fields) (s : MState) : MState :=
  let cat := status_category f
  let pts := story_points f
  let priority := get_priority f
  { done := if cat = "done" then f :: s.done else s.done
    in_prog := if cat = "indeterminate" then f :: s.in_prog else s.in_prog
    todo := if cat ≠ "done" ∧ cat ≠ "indeterminate" then f :: s.todo else s.todo
    blocked := if compute_is_blocked f then f :: s.blocked else s.blocked
    at_risk := if cat = "indeterminate" ∧
        ((5 ≤ pts ∨ priority = "Highest" ∨ priority = "High") ∧ days_left ≤ 3) then
        f :: s.at_risk else s.at_risk
    high_priority_todo := if (cat ≠ "done" ∧ cat ≠ "indeterminate") ∧
        (priority = "Highest" ∨ priority = "High") then
        f :: s.high_priority_todo else s.high_priority_todo
    total_points := pts + s.total_points
    done_points := if cat = "done" then pts + s.done_points else s.done_points
    in_prog_points := if cat = "indeterminate" then pts + s.in_prog_points else s.in_prog_points
    todo_points := if cat ≠ "done" ∧ cat ≠ "indeterminate" then pts + s.todo_points
      else s.todo_points }

/-- The `compute_metrics` loop over the issue list (lines 429-462);
entries failing the line-431 guard are skipped. -/
def metrics_loop (days_left : ℤ) : List Issue → MState
  | [] => ⟨[], [], [], [], [], [], 0, 0, 0, 0⟩
  | i :: rest =>
    match i with
    | .mk f => metrics_step days_left f (metrics_loop days_left rest)
    | _ => metrics_loop days_left rest

/-- The `counts` sub-record of the metrics. -/
structure Counts where
  total : ℕ
  done : ℕ
  in_progress : ℕ
  todo : ℕ
  blocked : ℕ
  at_risk : ℕ
deriving DecidableEq

/-- The `points` sub-record of the metrics. -/
structure Points where
  total : ℚ
  done : ℚ
  in_progress : ℚ
  todo : ℚ
deriving DecidableEq

/-- The dictionary returned by `compute_metrics` (lines 476-496). -/
structure Metrics where
  counts : Counts
  points : Points
  completion_pct : ℚ
  blocked_keys : List String
  at_risk_issues : List Fields
  high_priority_todo : List Fields
  all_in_progress : List Fields
deriving DecidableEq

/-- Embedding of the `priority_order` dict (line 473) with its `.get(_, 2)` default. -/
def priority_order (p : String) : ℕ :=
  if p = "Highest" then 0
  else if p = "High" then 1
  else if p = "Medium" then 2
  else if p = "Low" then 3
  else if p = "Lowest" then 4
  else 2

/-- Sort order of `high_priority_todo` (line 474): ascending in the pair
(priority rank, negated story points). -/
def hpt_le (a b : Fields) : Prop :=
  priority_order (get_priority a) < priority_order (get_priority b) ∨
    (priority_order (get_priority a) = priority_order (get_priority b) ∧
      story_points b ≤ story_points a)

instance : DecidableRel hpt_le := fun a b => by
  unfold hpt_le; infer_instance

/-- Sort order of `at_risk` (line 471): descending story points. -/
def points_ge (a b : Fields) : Prop := story_points b ≤ story_points a

instance : DecidableRel points_ge := fun a b => by
  unfold points_ge; infer_instance

/-- Embedding of `compute_metrics` (lines 406-498).  Python's stable `list.sort` is
modelled by `List.insertionSort`, which is stable for the reflexive
orders used here. -/
def compute_metrics (issues : List Issue) (sprint_end : Option ℤ) (now : ℤ) : Metrics :=
  let days_left := sprint_days_left sprint_end now
  let s := metrics_loop days_left issues
  let completion : ℚ := if s.total_points ≠ 0 then s.done_points / s.total_points * 100 else 0
  let completion : ℚ :=
    if s.total_points = 0 ∧ 0 < issues.length then
      ((s.done.length : ℚ) / (issues.length : ℚ)) * 100
    else completion
  let at_risk := s.at_risk.insertionSort points_ge
  let high_priority_todo := s.high_priority_todo.insertionSort hpt_le
  { counts :=
      { total := issues.length
        done := s.done.length
        in_progress := s.in_prog.length
        todo := s.todo.length
        blocked := s.blocked.length
        at_risk := at_risk.length }
    points :=
      { total := s.total_points
        done := s.done_points
        in_progress := s.in_prog_points
        todo := s.todo_points }
    completion_pct := round1 completion
    blocked_keys := s.blocked.map (fun f => f.key)
    at_risk_issues := at_risk
    high_priority_todo := high_priority_todo
    all_in_progress := s.in_prog }

/-! ## `detect_risks` (lines 212-294) -/

/-- One entry of a risk category: the offending issue, a human-readable
reason, and a severity label.  The reason strings follow the Python
f-strings, with rationals rendered by `toString` (Python renders floats
with a trailing `.0`; no claim depends on the reason text). -/
structure RiskItem where
  issue : Issue
  reason : String
  severity : String
deriving DecidableEq

/-- The six risk categories returned by `detect_risks` (lines 218-225).
`overdue_tasks` is declared by the code but never filled. -/
structure Risks where
  stale_in_progress : List RiskItem
  unassigned_high_priority : List RiskItem
  overdue_tasks : List RiskItem
  blocked_items : List RiskItem
  large_items_todo : List RiskItem
  sprint_goal_risk : List RiskItem
deriving DecidableEq

/-- One iteration of the `detect_risks` loop body (rules 1-5, lines
254-292) on a processed entry `orig` whose field view is `f`. -/
def risk_step (days_left now : ℤ) (orig : Issue) (f : Fields) (r : Risks) : Risks :=
  let cat := status_category f
  let pts := story_points f
  let priority := get_priority f
  let age_days := issue_age_days now f
  { stale_in_progress :=
      if cat = "indeterminate" ∧ 3 ≤ age_days then
        ⟨orig, "In progress for " ++ toString age_days ++ " days with no updates",
          if 5 ≤ age_days then "high" else "medium"⟩ :: r.stale_in_progress
      else r.stale_in_progress
    unassigned_high_priority :=
      if f.hasAssignee = false ∧ (priority = "Highest" ∨ priority = "High") then
        ⟨orig, priority ++ " priority issue not assigned", "high"⟩ ::
          r.unassigned_high_priority
      else r.unassigned_high_priority
    overdue_tasks := r.overdue_tasks
    blocked_items :=
      if is_blocked orig then
        ⟨orig, "Issue is blocked or flagged", "critical"⟩ :: r.blocked_items
      else r.blocked_items
    large_items_todo :=
      if cat = "new" ∧ 8 ≤ pts ∧ days_left ≤ 3 then
        ⟨orig, "Large story (" ++ toString pts ++ " points) not started with " ++
          toString days_left ++ " days left", "critical"⟩ :: r.large_items_todo
      else r.large_items_todo
    sprint_goal_risk :=
      if cat = "indeterminate" ∧ 5 ≤ pts ∧ days_left ≤ 2 then
        ⟨orig, toString pts ++ " point story in progress with only " ++
          toString days_left ++ " days remaining", "high"⟩ :: r.sprint_goal_risk
      else r.sprint_goal_risk }

/-- The `detect_risks` loop (lines 244-292).  A `fieldsNone` entry makes the
original function raise `AttributeError` at line 251, modelled as `none`;
an entry without a fields dict is processed with `empty_fields`. -/
def risks_loop (days_left now : ℤ) : List Issue → Option Risks
  | [] => some ⟨[], [], [], [], [], []⟩
  | i :: rest =>
    match i with
    | .noneEntry => risks_loop days_left now rest
    | .fieldsNone => none
    | .missingFields =>
      (risks_loop days_left now rest).map (risk_step days_left now .missingFields empty_fields)
    | .mk f => (risks_loop days_left now rest).map (risk_step days_left now (.mk f) f)

/-- Embedding of `detect_risks` (lines 212-294).  `sprint_start` only feeds the unused
`sprint_duration` local, so it does not influence the result. -/
def detect_risks (issues : List Issue) (sprint_start sprint_end : Option ℤ) (now : ℤ) :
    Option Risks :=
  let days_left := sprint_days_left sprint_end now
  risks_loop days_left now issues

/-! ## `calculate_sprint_health_score` (lines 297-403) -/

/-- The five-way breakdown of the health score (lines 396-402); each entry
is the sub-score rounded to one decimal. -/
structure Breakdown where
  completion : ℚ
  pace : ℚ
  blockers : ℚ
  risks : ℚ
  velocity : ℚ
deriving DecidableEq

/-- The record returned by `calculate_sprint_health_score` (lines 391-403). -/
structure Health where
  score : ℤ
  status : String
  emoji : String
  color : String
  breakdown : Breakdown
deriving DecidableEq

/-- Factor 2 (lines 305-324): pace versus time remaining.  The
`if sprint_start and sprint_end` truthiness test is a `None` test, since
`datetime` objects are always truthy. -/
def pace_score (completion_pct : ℚ) (sprint_start sprint_end : Option ℤ) (now : ℤ) : ℚ :=
  match sprint_start, sprint_end with
  | some s, some e =>
    let sprint_duration : ℚ := ((e - s : ℤ) : ℚ)
    let elapsed : ℚ := ((now - s : ℤ) : ℚ)
    let time_pct : ℚ := if 0 < sprint_duration then elapsed / sprint_duration * 100 else 0
    let pace_diff := completion_pct - time_pct
    if 10 ≤ pace_diff then 25
    else if 0 ≤ pace_diff then 20
    else if -10 ≤ pace_diff then 15
    else if -20 ≤ pace_diff then 10
    else 5
  | _, _ => 15

/-- Factor 3 (lines 326-335): blocked-issue management. -/
def blocked_score (blocked_count : ℕ) : ℚ :=
  if blocked_count = 0 then 15
  else if blocked_count ≤ 2 then 10
  else if blocked_count ≤ 5 then 5
  else 0

/-- Factor 4 (lines 337-349): stale and critical sprint-goal risks. -/
def risk_score (total_risks : ℕ) : ℚ :=
  if total_risks = 0 then 15
  else if total_risks ≤ 2 then 10
  else if total_risks ≤ 5 then 5
  else 0

/-- Factor 5 (lines 351-363): work distribution.  The Python literal `0.3`
is the float nearest 3/10; the two are interchangeable except on inputs
where `done` equals the float product exactly, which no claim exercises. -/
def work_distribution_score (total done : ℕ) : ℚ :=
  if (done : ℚ) < (total : ℚ) * (3/10) then 5
  else if (done : ℚ) < (total : ℚ) * (5/10) then 10
  else 15

/-- The status/emoji/color triple chosen from the total score
(lines 369-389); the emoji string literals are copied byte-for-byte from
the source file. -/
def health_status (total_score : ℤ) : String × String × String :=
  if 80 ≤ total_score then ("Excellent", "üü¢", "#4caf50")
  else if 65 ≤ total_score then ("Good", "üü¢", "#8bc34a")
  else if 50 ≤ total_score then ("Fair", "üü°", "#ffc107")
  else if 35 ≤ total_score then ("At Risk", "üü†", "#ff9800")
  else ("Critical", "üî¥", "#f44336")

/-- Embedding of `calculate_sprint_health_score` (lines 297-403).  The `.get` defaults on
`metrics` and `risks` never fire for records produced by
`compute_metrics` / `detect_risks`, so the fields are read directly. -/
def calculate_sprint_health_score (metrics : Metrics) (risks : Risks)
    (sprint_start sprint_end : Option ℤ) (now : ℤ) : Health :=
  let completion_pct := metrics.completion_pct
  let completion_score : ℚ := min 30 (completion_pct / 100 * 30)
  let ps := pace_score completion_pct sprint_start sprint_end now
  let bs := blocked_score risks.blocked_items.length
  let critical_risks := (risks.sprint_goal_risk.filter (fun r => r.severity == "critical")).length
  let rs := risk_score (risks.stale_in_progress.length + critical_risks)
  let ws := work_distribution_score metrics.counts.total metrics.counts.done
  let total_score : ℤ := min 100 (max 0 (pyRound (completion_score + ps + bs + rs + ws)))
  let sec := health_status total_score
  { score := total_score
    status := sec.1
    emoji := sec.2.1
    color := sec.2.2
    breakdown :=
      { completion := round1 completion_score
        pace := round1 ps
        blockers := round1 bs
        risks := round1 rs
        velocity := round1 ws } }

/-! ## `pattern_match_tickets` (`ai_ticket_suggester.py`, lines 229-336) -/

/-- A candidate ticket as consumed by `pattern_match_tickets`: the dict
built by `get_ticket_details`.  A missing or non-string description is
modelled as `""`, which the scoring loop skips exactly like Python's
`isinstance(desc, str) and desc` guard. -/
structure Ticket where
  key : String
  summary : String
  description : String
  labels : List String
  components : List String
deriving DecidableEq

/-- Python whitespace test for `str.strip()` / `str.split()` (ASCII set). -/
def py_space (c : Char) : Bool :=
  c == ' ' || c == '\t' || c == '\n' || c == '\r' || c == '\x0b' || c == '\x0c'

/-- Python `str.strip()` on a character list. -/
def py_strip (l : List Char) : List Char :=
  ((l.dropWhile py_space).reverse.dropWhile py_space).reverse

/-- Index of the first occurrence of `needle` in `hay`
(Python `str.find`, with `none` for -1). -/
def find_sub [BEq α] (needle : List α) : List α → Option ℕ
  | [] => if needle.isEmpty then some 0 else none
  | a :: as =>
    if needle.isPrefixOf (a :: as) then some 0
    else (find_sub needle as).map (· + 1)

/-- Embedding of `extract_description_snippet` (lines 229-259): a windowed, trimmed
snippet around the first occurrence of `keyword` in `description`. -/
def extract_description_snippet (description keyword : String) (max_length : ℕ) : String :=
  if description = "" ∨ keyword = "" then ""
  else
    match find_sub (lower_string keyword).data (lower_string description).data with
    | none => ""
    | some pos =>
      let chars := description.data
      let start := pos - 40
      let stop := min chars.length (pos + keyword.length + 60)
      let snippet := py_strip ((chars.drop start).take (stop - start))
      let snippet :=
        if 0 < start then
          match snippet.findIdx? (fun c => c == ' ') with
          | some k => if 0 < k then py_strip (snippet.drop k) else snippet
          | none => snippet
        else snippet
      let snippet :=
        if max_length < snippet.length then
          (match (snippet.take max_length).reverse.findIdx? (fun c => c == ' ') with
           | some k => (snippet.take max_length).take (max_length - 1 - k)
           | none => snippet.take max_length) ++ "...".data
        else snippet
      ⟨snippet⟩

/-- The `description_snippets` accumulation inside the scoring loop
(lines 291-300): one deduplicated snippet per matching keyword, in keyword
order.  The keyword iteration order over the Python set is arbitrary; see
the determinism theorem for what is and is not order-independent. -/
def description_snippets (all_keywords : List String) (t : Ticket) : List String :=
  if t.description ≠ "" then
    all_keywords.foldl (fun acc kw =>
      if str_contains (lower_string t.description) kw then
        let sn := extract_description_snippet t.description kw 100
        if sn ≠ "" && !(acc.contains sn) then acc ++ [sn] else acc
      else acc) []
  else []

/-- Description part of the match score (lines 291-298): +5 per matching
keyword that came from the reference ticket's own text, +3 otherwise;
skipped entirely for an empty/non-string description. -/
def description_score (all_keywords ticket_keywords : List String) (t : Ticket) : ℕ :=
  if t.description ≠ "" then
    all_keywords.foldl (fun acc kw =>
      if str_contains (lower_string t.description) kw then
        acc + (if ticket_keywords.contains kw then 5 else 3)
      else acc) 0
  else 0

/-- Summary part of the match score (lines 306-311): +2/+1 by the same
origin rule. -/
def summary_score (all_keywords ticket_keywords : List String) (t : Ticket) : ℕ :=
  all_keywords.foldl (fun acc kw =>
    if str_contains (lower_string t.summary) kw then
      acc + (if ticket_keywords.contains kw then 2 else 1)
    else acc) 0

/-- Label part of the match score (lines 314-317): +4 per label whose
lowercase form is one of the keywords. -/
def labels_score (all_keywords : List String) (t : Ticket) : ℕ :=
  t.labels.foldl (fun acc l =>
    if all_keywords.contains (lower_string l) then acc + 4 else acc) 0

/-- Component part of the match score (lines 319-322): +4 per matching
component. -/
def components_score (all_keywords : List String) (t : Ticket) : ℕ :=
  t.components.foldl (fun acc c =>
    if all_keywords.contains (lower_string c) then acc + 4 else acc) 0

/-- Total `match_score` a candidate receives in the scoring loop
(lines 289-322). -/
def match_score (all_keywords ticket_keywords : List String) (t : Ticket) : ℕ :=
  description_score all_keywords ticket_keywords t
    + summary_score all_keywords ticket_keywords t
    + labels_score all_keywords t
    + components_score all_keywords t

/-- The `reasons` list accumulated for a candidate (lines 291-322), before
the `[:3]` truncation: first description snippet if any, else one summary
reason when a keyword matches the summary, then one reason per matching
label and component. -/
def match_reasons_full (all_keywords : List String) (t : Ticket) : List String :=
  let snippets := description_snippets all_keywords t
  let reasons := if snippets ≠ [] then [snippets.headD ""] else []
  let reasons := reasons ++
    (if reasons = [] ∧ all_keywords.any (fun kw => str_contains (lower_string t.summary) kw) then
      ["Related to: " ++ t.summary]
    else [])
  let reasons := reasons ++ t.labels.filterMap (fun l =>
    if all_keywords.contains (lower_string l) then
      some ("matching label \x27" ++ l ++ "\x27")
    else none)
  reasons ++ t.components.filterMap (fun c =>
    if all_keywords.contains (lower_string c) then
      some ("matching component \x27" ++ c ++ "\x27")
    else none)

/-- A candidate annotated with its `match_score` and `match_reasons`
(lines 324-327 mutate the ticket dict; modelled as a wrapper record). -/
structure ScoredTicket where
  ticket : Ticket
  match_score : ℕ
  match_reasons : List String
deriving DecidableEq

/-- The candidate list built by the scoring loop (lines 287-327): every
ticket with a positive score, in input order, annotated with score and at
most three reasons. -/
def scored_candidates (all_keywords ticket_keywords : List String)
    (all_tickets : List Ticket) : List ScoredTicket :=
  all_tickets.filterMap (fun t =>
    let score := match_score all_keywords ticket_keywords t
    if 0 < score then
      some ⟨t, score, (match_reasons_full all_keywords t).take 3⟩
    else none)

/-- Sort order of the candidate sort (line 334): descending match score.
`List.insertionSort` with this reflexive order is stable, like Python's
`list.sort(key=..., reverse=True)`. -/
def score_ge (a b : ScoredTicket) : Prop := b.match_score ≤ a.match_score

instance : DecidableRel score_ge := fun a b => by
  unfold score_ge; infer_instance

/-- The scoring-and-ranking core of `pattern_match_tickets`
(lines 287-336), parameterised by the two keyword sets. -/
def pattern_match_core (all_keywords ticket_keywords : List String)
    (all_tickets : List Ticket) : List ScoredTicket :=
  ((scored_candidates all_keywords ticket_keywords all_tickets).insertionSort score_ge).take 10

/-- Python `s.split()`: split on whitespace runs, dropping empty pieces. -/
def py_split_ws (s : String) : List String :=
  (s.split (fun c => py_space c)).filter (fun p => p ≠ "")

/-- Keyword extraction from changed file paths (lines 266-270): split on
`/ _ - .` and whitespace, keep lowercased tokens longer than 2.  The
Python `set` is modelled as a deduplicated list; its iteration order is
arbitrary, which the determinism theorem accounts for. -/
def extract_file_keywords (changed_files : List String) : List String :=
  (changed_files.foldl (fun acc fp =>
    let parts := py_split_ws ((((fp.replace "/" " ").replace "_" " ").replace "-" " ").replace "." " ")
    acc ++ (parts.filter (fun p => 2 < p.length)).map lower_string) []).dedup

/-- Keyword extraction from the reference ticket's summary and description
(lines 272-283): split on `- _` and whitespace, keep lowercased tokens
longer than 3. -/
def extract_ticket_keywords (current_ticket_info : Option Ticket) : List String :=
  match current_ticket_info with
  | none => []
  | some info =>
    let summary_parts := py_split_ws ((info.summary.replace "-" " ").replace "_" " ")
    let kws := (summary_parts.filter (fun p => 3 < p.length)).map lower_string
    let kws := kws ++
      (if info.description ≠ "" then
        ((py_split_ws ((info.description.replace "-" " ").replace "_" " ")).filter
          (fun p => 3 < p.length)).map lower_string
      else [])
    kws.dedup

/-- Embedding of `pattern_match_tickets` (lines 262-336): extract the keyword sets, then
score, filter, sort and truncate the candidates. -/
def pattern_match_tickets (changed_files : List String) (all_tickets : List Ticket)
    (current_ticket_info : Option Ticket) : List ScoredTicket :=
  let file_keywords := extract_file_keywords changed_files
  let ticket_keywords := extract_ticket_keywords current_ticket_info
  let all_keywords := (file_keywords ++ ticket_keywords).dedup
  pattern_match_core all_keywords ticket_keywords all_tickets

/-! ## Helper lemmas -/

/-- Entries that pass the `compute_metrics` skip guard (line 431). -/
def has_fields : Issue → Bool
  | .mk _ => true
  | _ => false

lemma valid_fields_filter (issues : List Issue) :
    valid_fields (issues.filter has_fields) = valid_fields issues := by
  induction issues with
  | nil => rfl
  | cons i rest ih => cases i <;> simp [has_fields, valid_fields, List.filter_cons, ih]

lemma metrics_loop_filter (dl : ℤ) (issues : List Issue) :
    metrics_loop dl (issues.filter has_fields) = metrics_loop dl issues := by
  induction issues with
  | nil => rfl
  | cons i rest ih => cases i <;> simp [has_fields, metrics_loop, List.filter_cons, ih]

lemma metrics_loop_done (dl : ℤ) (issues : List Issue) :
    (metrics_loop dl issues).done =
      (valid_fields issues).filter (fun f => decide (status_category f = "done")) := by
  induction issues with
  | nil => rfl
  | cons i rest ih =>
    cases i with
    | mk f =>
      by_cases hc : status_category f = "done" <;>
        simp [metrics_loop, metrics_step, valid_fields, List.filter_cons, hc, ih]
    | noneEntry => simpa [metrics_loop, valid_fields] using ih
    | fieldsNone => simpa [metrics_loop, valid_fields] using ih
    | missingFields => simpa [metrics_loop, valid_fields] using ih

lemma metrics_loop_in_prog (dl : ℤ) (issues : List Issue) :
    (metrics_loop dl issues).in_prog =
      (valid_fields issues).filter (fun f => decide (status_category f = "indeterminate")) := by
  induction issues with
  | nil => rfl
  | cons i rest ih =>
    cases i with
    | mk f =>
      by_cases hc : status_category f = "indeterminate" <;>
        simp [metrics_loop, metrics_step, valid_fields, List.filter_cons, hc, ih]
    | noneEntry => simpa [metrics_loop, valid_fields] using ih
    | fieldsNone => simpa [metrics_loop, valid_fields] using ih
    | missingFields => simpa [metrics_loop, valid_fields] using ih

lemma metrics_loop_todo (dl : ℤ) (issues : List Issue) :
    (metrics_loop dl issues).todo =
      (valid_fields issues).filter
        (fun f => decide (status_category f ≠ "done" ∧ status_category f ≠ "indeterminate")) := by
  induction issues with
  | nil => rfl
  | cons i rest ih =>
    cases i with
    | mk f =>
      by_cases hc : status_category f ≠ "done" ∧ status_category f ≠ "indeterminate" <;>
        simp [metrics_loop, metrics_step, valid_fields, List.filter_cons, hc, ih]
    | noneEntry => simpa [metrics_loop, valid_fields] using ih
    | fieldsNone => simpa [metrics_loop, valid_fields] using ih
    | missingFields => simpa [metrics_loop, valid_fields] using ih

lemma metrics_loop_blocked (dl : ℤ) (issues : List Issue) :
    (metrics_loop dl issues).blocked = (valid_fields issues).filter compute_is_blocked := by
  induction issues with
  | nil => rfl
  | cons i rest ih =>
    cases i with
    | mk f =>
      by_cases hc : compute_is_blocked f = true <;>
        simp [metrics_loop, metrics_step, valid_fields, List.filter_cons, hc, ih]
    | noneEntry => simpa [metrics_loop, valid_fields] using ih
    | fieldsNone => simpa [metrics_loop, valid_fields] using ih
    | missingFields => simpa [metrics_loop, valid_fields] using ih

lemma metrics_loop_at_risk (dl : ℤ) (issues : List Issue) :
    (metrics_loop dl issues).at_risk =
      (valid_fields issues).filter (fun f => decide (status_category f = "indeterminate" ∧
        ((5 ≤ story_points f ∨ get_priority f = "Highest" ∨ get_priority f = "High") ∧
          dl ≤ 3))) := by
  induction issues with
  | nil => rfl
  | cons i rest ih =>
    cases i with
    | mk f =>
      by_cases hc : status_category f = "indeterminate" ∧
          ((5 ≤ story_points f ∨ get_priority f = "Highest" ∨ get_priority f = "High") ∧
            dl ≤ 3) <;>
        simp [metrics_loop, metrics_step, valid_fields, List.filter_cons, hc, ih]
    | noneEntry => simpa [metrics_loop, valid_fields] using ih
    | fieldsNone => simpa [metrics_loop, valid_fields] using ih
    | missingFields => simpa [metrics_loop, valid_fields] using ih

lemma metrics_loop_hpt (dl : ℤ) (issues : List Issue) :
    (metrics_loop dl issues).high_priority_todo =
      (valid_fields issues).filter
        (fun f => decide ((status_category f ≠ "done" ∧ status_category f ≠ "indeterminate") ∧
          (get_priority f = "Highest" ∨ get_priority f = "High"))) := by
  induction issues with
  | nil => rfl
  | cons i rest ih =>
    cases i with
    | mk f =>
      by_cases hc : (status_category f ≠ "done" ∧ status_category f ≠ "indeterminate") ∧
          (get_priority f = "Highest" ∨ get_priority f = "High") <;>
        simp [metrics_loop, metrics_step, valid_fields, List.filter_cons, hc, ih]
    | noneEntry => simpa [metrics_loop, valid_fields] using ih
    | fieldsNone => simpa [metrics_loop, valid_fields] using ih
    | missingFields => simpa [metrics_loop, valid_fields] using ih

lemma metrics_loop_total_points (dl : ℤ) (issues : List Issue) :
    (metrics_loop dl issues).total_points = ((valid_fields issues).map story_points).sum := by
  induction issues with
  | nil => rfl
  | cons i rest ih =>
    cases i <;> simp [metrics_loop, metrics_step, valid_fields, ih]

lemma metrics_loop_done_points (dl : ℤ) (issues : List Issue) :
    (metrics_loop dl issues).done_points =
      (((valid_fields issues).filter (fun f => decide (status_category f = "done"))).map
        story_points).sum := by
  induction issues with
  | nil => rfl
  | cons i rest ih =>
    cases i with
    | mk f =>
      by_cases hc : status_category f = "done" <;>
        simp [metrics_loop, metrics_step, valid_fields, List.filter_cons, hc, ih]
    | noneEntry => simpa [metrics_loop, valid_fields] using ih
    | fieldsNone => simpa [metrics_loop, valid_fields] using ih
    | missingFields => simpa [metrics_loop, valid_fields] using ih

lemma metrics_loop_in_prog_points (dl : ℤ) (issues : List Issue) :
    (metrics_loop dl issues).in_prog_points =
      (((valid_fields issues).filter (fun f => decide (status_category f = "indeterminate"))).map
        story_points).sum := by
  induction issues with
  | nil => rfl
  | cons i rest ih =>
    cases i with
    | mk f =>
      by_cases hc : status_category f = "indeterminate" <;>
        simp [metrics_loop, metrics_step, valid_fields, List.filter_cons, hc, ih]
    | noneEntry => simpa [metrics_loop, valid_fields] using ih
    | fieldsNone => simpa [metrics_loop, valid_fields] using ih
    | missingFields => simpa [metrics_loop, valid_fields] using ih

lemma metrics_loop_todo_points (dl : ℤ) (issues : List Issue) :
    (metrics_loop dl issues).todo_points =
      (((valid_fields issues).filter
        (fun f => decide (status_category f ≠ "done" ∧ status_category f ≠ "indeterminate"))).map
        story_points).sum := by
  induction issues with
  | nil => rfl
  | cons i rest ih =>
    cases i with
    | mk f =>
      by_cases hc : status_category f ≠ "done" ∧ status_category f ≠ "indeterminate" <;>
        simp [metrics_loop, metrics_step, valid_fields, List.filter_cons, hc, ih]
    | noneEntry => simpa [metrics_loop, valid_fields] using ih
    | fieldsNone => simpa [metrics_loop, valid_fields] using ih
    | missingFields => simpa [metrics_loop, valid_fields] using ih

section SortHelpers

variable {α : Type} {β : Type}

lemma map_orderedInsert (f : α → β) (r : α → α → Prop) (s : β → β → Prop)
    [DecidableRel r] [DecidableRel s] (hc : ∀ a b, r a b ↔ s (f a) (f b)) (a : α) :
    ∀ l : List α, (l.orderedInsert r a).map f = (l.map f).orderedInsert s (f a)
  | [] => rfl
  | b :: bs => by
    simp only [List.orderedInsert, List.map_cons]
    by_cases h : r a b
    · rw [if_pos h, if_pos ((hc a b).mp h)]; simp
    · rw [if_neg h, if_neg (fun hs => h ((hc a b).mpr hs))]
      simp [map_orderedInsert f r s hc a bs]

lemma map_insertionSort (f : α → β) (r : α → α → Prop) (s : β → β → Prop)
    [DecidableRel r] [DecidableRel s] (hc : ∀ a b, r a b ↔ s (f a) (f b)) :
    ∀ l : List α, (l.insertionSort r).map f = (l.map f).insertionSort s
  | [] => rfl
  | b :: bs => by
    simp only [List.insertionSort, List.map_cons]
    rw [map_orderedInsert f r s hc, map_insertionSort f r s hc bs]

/-- Stability of `orderedInsert` for a reflexive descending key order: the
elements with any fixed key value keep their relative positions, the
inserted one coming first among equals. -/
lemma filter_orderedInsert_key (key : α → ℕ) (r : α → α → Prop) [DecidableRel r]
    (hr : ∀ a b, r a b ↔ key b ≤ key a) (q : α → Bool) (n : ℕ)
    (hq : ∀ x, q x = true ↔ key x = n) (a : α) :
    ∀ l : List α, (l.orderedInsert r a).filter q =
      if q a then a :: l.filter q else l.filter q
  | [] => by
    by_cases hqa : q a = true <;> simp [List.orderedInsert, List.filter_cons, hqa]
  | b :: bs => by
    simp only [List.orderedInsert]
    by_cases h : r a b
    · rw [if_pos h]
      by_cases hqa : q a = true <;> simp [List.filter_cons, hqa]
    · rw [if_neg h]
      have hlt : key a < key b := by
        have := (hr a b).not.mp h
        omega
      have ih := filter_orderedInsert_key key r hr q n hq a bs
      by_cases hqa : q a = true
      · have hqb : ¬ q b = true := by
          intro hb
          have hb' := (hq b).mp hb
          have ha' := (hq a).mp hqa
          omega
        simp [List.filter_cons, hqb, ih, hqa]
      · by_cases hqb : q b = true <;> simp [List.filter_cons, ih, hqa, hqb]

lemma filter_insertionSort_key (key : α → ℕ) (r : α → α → Prop) [DecidableRel r]
    (hr : ∀ a b, r a b ↔ key b ≤ key a) (q : α → Bool) (n : ℕ)
    (hq : ∀ x, q x = true ↔ key x = n) :
    ∀ l : List α, (l.insertionSort r).filter q = l.filter q
  | [] => rfl
  | b :: bs => by
    simp only [List.insertionSort]
    rw [filter_orderedInsert_key key r hr q n hq, filter_insertionSort_key key r hr q n hq bs,
      List.filter_cons]

end SortHelpers

instance : IsTotal ScoredTicket score_ge :=
  ⟨fun a b => le_total b.match_score a.match_score⟩

instance : IsTrans ScoredTicket score_ge :=
  ⟨fun _ _ _ hab hbc => le_trans hbc hab⟩

section FoldHelpers

variable {α : Type}

lemma foldl_add_weighted (p q : α → Bool) (a b : ℕ) :
    ∀ (l : List α) (n : ℕ),
      l.foldl (fun acc x => if p x then acc + (if q x then a else b) else acc) n =
        n + a * l.countP (fun x => p x && q x) + b * l.countP (fun x => p x && !q x)
  | [], n => by simp
  | x :: xs, n => by
    simp only [List.foldl_cons, List.countP_cons]
    rw [foldl_add_weighted p q a b xs]
    by_cases hp : p x = true <;> by_cases hq : q x = true <;>
      simp [hp, hq] <;> ring

lemma foldl_add_const (p : α → Bool) (a : ℕ) :
    ∀ (l : List α) (n : ℕ),
      l.foldl (fun acc x => if p x then acc + a else acc) n = n + a * l.countP p
  | [], n => by simp
  | x :: xs, n => by
    simp only [List.foldl_cons, List.countP_cons]
    rw [foldl_add_const p a xs]
    by_cases hp : p x = true <;> simp [hp] <;> ring

end FoldHelpers

lemma length_filter_partition {α : Type} (p q : α → Prop) [DecidablePred p] [DecidablePred q]
    (hpq : ∀ x, ¬(p x ∧ q x)) :
    ∀ l : List α,
      (l.filter (fun x => decide (p x))).length + (l.filter (fun x => decide (q x))).length +
        (l.filter (fun x => decide (¬ p x ∧ ¬ q x))).length = l.length
  | [] => rfl
  | x :: xs => by
    have ih := length_filter_partition p q hpq xs
    by_cases hp : p x
    · by_cases hq : q x
      · exact absurd ⟨hp, hq⟩ (hpq x)
      · simp [List.filter_cons, hp, hq] at ih ⊢
        omega
    · by_cases hq : q x
      · simp [List.filter_cons, hp, hq] at ih ⊢
        omega
      · simp [List.filter_cons, hp, hq] at ih ⊢
        omega

lemma is_sub_iff_infix {α : Type} [BEq α] [LawfulBEq α] (needle : List α) :
    ∀ hay : List α, is_sub needle hay = true ↔ needle <:+: hay
  | [] => by
    rw [is_sub]
    simp [List.isEmpty_iff, List.infix_nil]
  | a :: as => by
    rw [is_sub, Bool.or_eq_true, List.infix_cons_iff, is_sub_iff_infix needle as]
    constructor
    · rintro (h | h)
      · exact Or.inl (List.isPrefixOf_iff_prefix.mp h)
      · exact Or.inr h
    · rintro (h | h)
      · exact Or.inl (List.isPrefixOf_iff_prefix.mpr h)
      · exact Or.inr h

/-- Claim C7: `compute_metrics` partitions every processed issue into
exactly one of the done / in-progress / todo buckets by its status-category
key ("done" → done, "indeterminate" → in-progress, anything else → todo),
accumulating both the count and the story-point total of each bucket. -/
theorem claim7_partition (issues : List Issue) (sprint_end : Option ℤ) (now : ℤ) :
    (compute_metrics issues sprint_end now).counts.done =
      ((valid_fields issues).filter (fun f => decide (status_category f = "done"))).length ∧
    (compute_metrics issues sprint_end now).counts.in_progress =
      ((valid_fields issues).filter
        (fun f => decide (status_category f = "indeterminate"))).length ∧
    (compute_metrics issues sprint_end now).counts.todo =
      ((valid_fields issues).filter
        (fun f => decide (status_category f ≠ "done" ∧
          status_category f ≠ "indeterminate"))).length ∧
    (compute_metrics issues sprint_end now).counts.done +
        (compute_metrics issues sprint_end now).counts.in_progress +
        (compute_metrics issues sprint_end now).counts.todo =
      (valid_fields issues).length ∧
    (compute_metrics issues sprint_end now).points.total =
      ((valid_fields issues).map story_points).sum ∧
    (compute_metrics issues sprint_end now).points.done =
      (((valid_fields issues).filter
        (fun f => decide (status_category f = "done"))).map story_points).sum ∧
    (compute_metrics issues sprint_end now).points.in_progress =
      (((valid_fields issues).filter
        (fun f => decide (status_category f = "indeterminate"))).map story_points).sum ∧
    (compute_metrics issues sprint_end now).points.todo =
      (((valid_fields issues).filter
        (fun f => decide (status_category f ≠ "done" ∧
          status_category f ≠ "indeterminate"))).map story_points).sum ∧
    (compute_metrics issues sprint_end now).all_in_progress =
      (valid_fields issues).filter (fun f => decide (status_category f = "indeterminate")) := by
  have hd := metrics_loop_done (sprint_days_left sprint_end now) issues
  have hi := metrics_loop_in_prog (sprint_days_left sprint_end now) issues
  have ht := metrics_loop_todo (sprint_days_left sprint_end now) issues
  have htp := metrics_loop_total_points (sprint_days_left sprint_end now) issues
  have hdp := metrics_loop_done_points (sprint_days_left sprint_end now) issues
  have hip := metrics_loop_in_prog_points (sprint_days_left sprint_end now) issues
  have hop := metrics_loop_todo_points (sprint_days_left sprint_end now) issues
  have hpart := length_filter_partition (fun f => status_category f = "done")
    (fun f => status_category f = "indeterminate")
    (fun f => by
      rintro ⟨h1, h2⟩
      rw [h1] at h2
      exact absurd h2 (by decide))
    (valid_fields issues)
  refine ⟨?_, ?_, ?_, ?_, ?_, ?_, ?_, ?_, ?_⟩ <;>
    simp only [compute_metrics, hd, hi, ht, htp, hdp, hip, hop]
  exact hpart

/-- Claim C4: the aggregator's inline blocked test and the risk detector's
`is_blocked` agree on every well-formed issue, both hold exactly when the
issue is flagged, carries a case-insensitive "blocked" label, or has
"blocked" as a case-insensitive substring of its status name, and a blocked
issue lands exactly once in each blocked bucket however many of the three
conditions hold. -/
theorem claim4_blocked_equiv (f : Fields) (issues : List Issue) (dl : ℤ)
    (ss se : Option ℤ) (now : ℤ) :
    compute_is_blocked f = is_blocked (Issue.mk f) ∧
    (compute_is_blocked f = true ↔
      (f.flagged = true ∨
        "blocked".data <:+: (lower_string (f.statusName.getD "")).data ∨
        ∃ l ∈ f.labels, lower_string l = "blocked")) ∧
    (metrics_loop dl issues).blocked.count f =
      (if compute_is_blocked f then (valid_fields issues).count f else 0) ∧
    (detect_risks [Issue.mk f] ss se now).map (fun r => r.blocked_items.length) =
      some (if is_blocked (Issue.mk f) then 1 else 0) := by
  refine ⟨rfl, ?_, ?_, ?_⟩
  · rw [compute_is_blocked]
    simp only [Bool.or_eq_true, List.any_eq_true, beq_iff_eq, str_contains,
      is_sub_iff_infix]
    tauto
  · rw [metrics_loop_blocked]
    by_cases hb : compute_is_blocked f = true
    · rw [if_pos hb, List.count_filter hb]
    · rw [if_neg hb, List.count_eq_zero]
      intro hmem
      exact hb (List.mem_filter.mp hmem).2
  · rw [detect_risks, risks_loop, risks_loop]
    by_cases hb : is_blocked (Issue.mk f) = true <;>
      simp [risk_step, hb]

/-- Concrete blocked issue satisfying all three blocked conditions at once. -/
def fields_blocked : Fields :=
  ⟨some "indeterminate", some "Blocked in review", ["Blocked", "ui"], true,
    some "High", true, some 3, none, "K-9"⟩

theorem claim4_witness :
    (metrics_loop 0 [.mk fields_blocked, .noneEntry, .mk fields_blocked]).blocked.count
      fields_blocked = 2 := by
  have h := (claim4_blocked_equiv fields_blocked
    [.mk fields_blocked, .noneEntry, .mk fields_blocked] 0 none none 0).2.2.1
  rw [h]
  decide

/-- Concrete done issue with 8 story points and High priority. -/
def fields_done_high : Fields :=
  ⟨some "done", some "Done", [], false, some "High", true, some 8, none, "K-5"⟩

/-- Claim C5 counterexample: with the sprint ending today (0 days left), a
done issue with 8 points and High priority satisfies the claimed at-risk
condition — (points ≥ 5 or priority High/Highest) and days-left ≤ 3 — yet
`compute_metrics` does not flag it, because the at-risk test only runs in
the in-progress branch. -/
theorem claim5_counterexample :
    (5 ≤ story_points fields_done_high ∨ get_priority fields_done_high = "Highest" ∨
      get_priority fields_done_high = "High") ∧
    sprint_days_left (some 0) 0 ≤ 3 ∧
    (compute_metrics [.mk fields_done_high] (some 0) 0).counts.at_risk = 0 ∧
    (compute_metrics [.mk fields_done_high] (some 0) 0).at_risk_issues = [] := by
  refine ⟨?_, ?_, ?_, ?_⟩ <;> decide

/-- Claim C5 as amended: an issue processed by `compute_metrics` is flagged
at risk (listed in `at_risk_issues` and counted in `counts.at_risk`) if and
only if its status category is "indeterminate" (in progress) AND
(story points ≥ 5 OR priority High/Highest) AND days-left ≤ 3. -/
theorem claim5_amended (issues : List Issue) (sprint_end : Option ℤ) (now : ℤ) :
    (∀ f : Fields, f ∈ (compute_metrics issues sprint_end now).at_risk_issues ↔
      (f ∈ valid_fields issues ∧ status_category f = "indeterminate" ∧
        ((5 ≤ story_points f ∨ get_priority f = "Highest" ∨ get_priority f = "High") ∧
          sprint_days_left sprint_end now ≤ 3))) ∧
    (compute_metrics issues sprint_end now).counts.at_risk =
      ((valid_fields issues).filter (fun f => decide (status_category f = "indeterminate" ∧
        ((5 ≤ story_points f ∨ get_priority f = "Highest" ∨ get_priority f = "High") ∧
          sprint_days_left sprint_end now ≤ 3)))).length := by
  have har := metrics_loop_at_risk (sprint_days_left sprint_end now) issues
  constructor
  · intro f
    have hperm := List.perm_insertionSort points_ge
      ((metrics_loop (sprint_days_left sprint_end now) issues).at_risk)
    simp only [compute_metrics]
    rw [hperm.mem_iff, har, List.mem_filter]
    simp
  · simp only [compute_metrics, List.length_insertionSort, har]

/-- Concrete in-progress issue with 5 points and High priority. -/
def fields_in_progress_big : Fields :=
  ⟨some "indeterminate", some "In Progress", [], false, some "High", true, some 5, none, "K-7"⟩

theorem claim5_witness :
    (compute_metrics [.mk fields_in_progress_big] (some 0) 0).counts.at_risk = 1 := by
  have h := (claim5_amended [.mk fields_in_progress_big] (some 0) 0).2
  rw [h]
  decide

/-- Concrete done issue with zero story points. -/
def fields_done_zero : Fields :=
  ⟨some "done", some "Done", [], false, none, true, some 0, none, "K-2"⟩

/-- Claim C2 counterexample: prepending a `None` entry changes the
aggregate.  `counts.total` counts the skipped entry, and with zero total
story points the completion fallback divides by the full input length, so
the results are not "the same aggregate as if those entries were simply
absent". -/
theorem claim2_counterexample :
    (compute_metrics [.noneEntry, .mk fields_done_zero] none 0).counts.total ≠
      (compute_metrics [.mk fields_done_zero] none 0).counts.total ∧
    (compute_metrics [.noneEntry, .mk fields_done_zero] none 0).completion_pct = 50 ∧
    (compute_metrics [.mk fields_done_zero] none 0).completion_pct = 100 := by
  have hz : story_points fields_done_zero = 0 := by decide
  have hc : status_category fields_done_zero = "done" := by decide
  have hb : compute_is_blocked fields_done_zero = false := by decide
  have hp : get_priority fields_done_zero = "Medium" := by decide
  refine ⟨by decide, ?_, ?_⟩ <;>
    norm_num [compute_metrics, metrics_loop, metrics_step, sprint_days_left, hz, hc, hb, hp,
      round1, pyRound, pyFloor_eq_floor]

/-- Claim C2 as amended: `compute_metrics` never fails on `None` /
missing-`fields` entries (it is total on the `Issue` type), and removing
those entries preserves every aggregate except `counts.total`, which counts
all input entries, and — through it — the zero-story-points completion
fallback, which divides by the full input length; in particular the
completion percentage is unchanged whenever the total story points are
non-zero. -/
theorem claim2_amended (issues : List Issue) (sprint_end : Option ℤ) (now : ℤ) :
    (compute_metrics (issues.filter has_fields) sprint_end now).counts.done =
      (compute_metrics issues sprint_end now).counts.done ∧
    (compute_metrics (issues.filter has_fields) sprint_end now).counts.in_progress =
      (compute_metrics issues sprint_end now).counts.in_progress ∧
    (compute_metrics (issues.filter has_fields) sprint_end now).counts.todo =
      (compute_metrics issues sprint_end now).counts.todo ∧
    (compute_metrics (issues.filter has_fields) sprint_end now).counts.blocked =
      (compute_metrics issues sprint_end now).counts.blocked ∧
    (compute_metrics (issues.filter has_fields) sprint_end now).counts.at_risk =
      (compute_metrics issues sprint_end now).counts.at_risk ∧
    (compute_metrics (issues.filter has_fields) sprint_end now).points =
      (compute_metrics issues sprint_end now).points ∧
    (compute_metrics (issues.filter has_fields) sprint_end now).blocked_keys =
      (compute_metrics issues sprint_end now).blocked_keys ∧
    (compute_metrics (issues.filter has_fields) sprint_end now).at_risk_issues =
      (compute_metrics issues sprint_end now).at_risk_issues ∧
    (compute_metrics (issues.filter has_fields) sprint_end now).high_priority_todo =
      (compute_metrics issues sprint_end now).high_priority_todo ∧
    (compute_metrics (issues.filter has_fields) sprint_end now).all_in_progress =
      (compute_metrics issues sprint_end now).all_in_progress ∧
    (compute_metrics issues sprint_end now).counts.total = issues.length ∧
    (compute_metrics (issues.filter has_fields) sprint_end now).counts.total =
      (issues.filter has_fields).length ∧
    ((compute_metrics issues sprint_end now).points.total ≠ 0 →
      (compute_metrics (issues.filter has_fields) sprint_end now).completion_pct =
        (compute_metrics issues sprint_end now).completion_pct) := by
  have hs := metrics_loop_filter (sprint_days_left sprint_end now) issues
  refine ⟨?_, ?_, ?_, ?_, ?_, ?_, ?_, ?_, ?_, ?_, ?_, ?_, ?_⟩ <;>
    simp only [compute_metrics, hs]
  intro h
  simp [h]

/-- Concrete done issue with one story point. -/
def fields_done_one : Fields :=
  ⟨some "done", some "Done", [], false, none, true, some 1, none, "K-1"⟩

theorem claim2_witness :
    (compute_metrics [.mk fields_done_one] none 0).completion_pct =
      (compute_metrics [.noneEntry, .mk fields_done_one] none 0).completion_pct := by
  have hz : story_points fields_done_one = 1 := by decide
  have hc : status_category fields_done_one = "done" := by decide
  have hne : (compute_metrics [.noneEntry, .mk fields_done_one] none 0).points.total ≠ 0 := by
    norm_num [compute_metrics, metrics_loop, metrics_step, hz, hc]
  obtain ⟨-, -, -, -, -, -, -, -, -, -, -, -, h13⟩ :=
    claim2_amended [.noneEntry, .mk fields_done_one] none 0
  have h := h13 hne
  have hfilter : List.filter has_fields [Issue.noneEntry, Issue.mk fields_done_one] =
      [Issue.mk fields_done_one] := by decide
  rwa [hfilter] at h

/-- Concrete todo issue with two story points. -/
def fields_todo_two : Fields :=
  ⟨some "new", some "To Do", [], false, none, true, some 2, none, "K-3"⟩

/-- Claim C3 counterexample: with 1 done point out of 3 the completion
ratio is 100/3, but `compute_metrics` stores `round(completion, 1)`,
namely 33.3, so `completion_pct` is not exactly the ratio times 100. -/
theorem claim3_counterexample :
    (compute_metrics [.mk fields_done_one, .mk fields_todo_two] none 0).points.total ≠ 0 ∧
    (compute_metrics [.mk fields_done_one, .mk fields_todo_two] none 0).completion_pct =
      333/10 ∧
    (compute_metrics [.mk fields_done_one, .mk fields_todo_two] none 0).points.done /
        (compute_metrics [.mk fields_done_one, .mk fields_todo_two] none 0).points.total *
        100 = 100/3 ∧
    (333 : ℚ)/10 ≠ 100/3 := by
  have h1 : status_category fields_done_one = "done" := by decide
  have h2 : status_category fields_todo_two = "new" := by decide
  have h3 : compute_is_blocked fields_done_one = false := by decide
  have h4 : compute_is_blocked fields_todo_two = false := by decide
  have h5 : get_priority fields_done_one = "Medium" := by decide
  have h6 : get_priority fields_todo_two = "Medium" := by decide
  have hp1 : story_points fields_done_one = 1 := by decide
  have hp2 : story_points fields_todo_two = 2 := by decide
  refine ⟨?_, ?_, ?_, by norm_num⟩ <;>
    norm_num [compute_metrics, metrics_loop, metrics_step, sprint_days_left,
      h1, h2, h3, h4, h5, h6, hp1, hp2, round1, pyRound, pyFloor_eq_floor,
      (by decide : ("new":String) ≠ "done"), (by decide : ("new":String) ≠ "indeterminate")]

/-- Claim C3 as amended: for a non-empty issue list, `completion_pct` is the
one-decimal rounding of (done points / total points) × 100 when the total
story points are non-zero, and of (done count / total input count) × 100
when they are zero; for an empty list it is zero, with all counts and
point sums zero. -/
theorem claim3_amended (issues : List Issue) (sprint_end : Option ℤ) (now : ℤ) :
    (issues ≠ [] →
      ((compute_metrics issues sprint_end now).points.total ≠ 0 →
        (compute_metrics issues sprint_end now).completion_pct =
          round1 ((compute_metrics issues sprint_end now).points.done /
            (compute_metrics issues sprint_end now).points.total * 100)) ∧
      ((compute_metrics issues sprint_end now).points.total = 0 →
        (compute_metrics issues sprint_end now).completion_pct =
          round1 (((compute_metrics issues sprint_end now).counts.done : ℚ) /
            ((compute_metrics issues sprint_end now).counts.total : ℚ) * 100))) ∧
    (issues = [] →
      (compute_metrics issues sprint_end now).completion_pct = 0 ∧
      (compute_metrics issues sprint_end now).counts = ⟨0, 0, 0, 0, 0, 0⟩ ∧
      (compute_metrics issues sprint_end now).points = ⟨0, 0, 0, 0⟩) := by
  constructor
  · intro hne
    constructor
    · intro h0
      simp only [compute_metrics] at h0 ⊢
      simp [h0]
    · intro h0
      simp only [compute_metrics] at h0 ⊢
      have hlen : 0 < issues.length := List.length_pos.mpr hne
      simp [h0, hlen]
  · intro h
    subst h
    refine ⟨?_, ?_, ?_⟩
    · norm_num [compute_metrics, metrics_loop, round1, pyRound, pyFloor_eq_floor]
    · simp [compute_metrics, metrics_loop, List.insertionSort]
    · simp [compute_metrics, metrics_loop]

theorem claim3_witness :
    (compute_metrics [.mk fields_done_one] none 0).completion_pct =
      round1 ((compute_metrics [.mk fields_done_one] none 0).points.done /
        (compute_metrics [.mk fields_done_one] none 0).points.total * 100) := by
  have hz : story_points fields_done_one = 1 := by decide
  have hc : status_category fields_done_one = "done" := by decide
  have hne : (compute_metrics [.mk fields_done_one] none 0).points.total ≠ 0 := by
    norm_num [compute_metrics, metrics_loop, metrics_step, hz, hc]
  exact ((claim3_amended [.mk fields_done_one] none 0).1 (by simp)).1 hne

lemma pace_score_eq (cp : ℚ) (s e now : ℤ) (h : s < e) :
    pace_score cp (some s) (some e) now =
      (if 10 ≤ cp - ((now - s : ℤ) : ℚ) / ((e - s : ℤ) : ℚ) * 100 then 25
       else if 0 ≤ cp - ((now - s : ℤ) : ℚ) / ((e - s : ℤ) : ℚ) * 100 then 20
       else if -10 ≤ cp - ((now - s : ℤ) : ℚ) / ((e - s : ℤ) : ℚ) * 100 then 15
       else if -20 ≤ cp - ((now - s : ℤ) : ℚ) / ((e - s : ℤ) : ℚ) * 100 then 10
       else 5) := by
  have hd : (0 : ℚ) < ((e - s : ℤ) : ℚ) := by
    exact_mod_cast (by omega : (0 : ℤ) < e - s)
  simp only [pace_score, if_pos hd]

lemma round1_ofNat (n : ℕ) : round1 (OfNat.ofNat n : ℚ) = (OfNat.ofNat n : ℚ) := by
  have h := round1_intCast (Int.ofNat n)
  simpa using h

/-- Claim C6: with both sprint dates present and a positive sprint duration,
the pace sub-score is 25 / 20 / 15 / 10 / 5 according to whether the
difference between completion percentage and elapsed-time percentage is
≥ 10, in [0, 10), in [-10, 0), in [-20, -10), or below -20; when either
sprint date is missing the pace sub-score is exactly 15. -/
theorem claim6_pace_brackets (m : Metrics) (r : Risks) :
    (∀ (s e now : ℤ), s < e →
      ((10 ≤ m.completion_pct - ((now - s : ℤ) : ℚ) / ((e - s : ℤ) : ℚ) * 100 →
        (calculate_sprint_health_score m r (some s) (some e) now).breakdown.pace = 25) ∧
       (0 ≤ m.completion_pct - ((now - s : ℤ) : ℚ) / ((e - s : ℤ) : ℚ) * 100 ∧
          m.completion_pct - ((now - s : ℤ) : ℚ) / ((e - s : ℤ) : ℚ) * 100 < 10 →
        (calculate_sprint_health_score m r (some s) (some e) now).breakdown.pace = 20) ∧
       (-10 ≤ m.completion_pct - ((now - s : ℤ) : ℚ) / ((e - s : ℤ) : ℚ) * 100 ∧
          m.completion_pct - ((now - s : ℤ) : ℚ) / ((e - s : ℤ) : ℚ) * 100 < 0 →
        (calculate_sprint_health_score m r (some s) (some e) now).breakdown.pace = 15) ∧
       (-20 ≤ m.completion_pct - ((now - s : ℤ) : ℚ) / ((e - s : ℤ) : ℚ) * 100 ∧
          m.completion_pct - ((now - s : ℤ) : ℚ) / ((e - s : ℤ) : ℚ) * 100 < -10 →
        (calculate_sprint_health_score m r (some s) (some e) now).breakdown.pace = 10) ∧
       (m.completion_pct - ((now - s : ℤ) : ℚ) / ((e - s : ℤ) : ℚ) * 100 < -20 →
        (calculate_sprint_health_score m r (some s) (some e) now).breakdown.pace = 5))) ∧
    (∀ (se : Option ℤ) (now : ℤ),
      (calculate_sprint_health_score m r none se now).breakdown.pace = 15) ∧
    (∀ (ss : Option ℤ) (now : ℤ),
      (calculate_sprint_health_score m r ss none now).breakdown.pace = 15) := by
  refine ⟨?_, ?_, ?_⟩
  · intro s e now hse
    refine ⟨?_, ?_, ?_, ?_, ?_⟩ <;> intro hcond <;>
      simp only [calculate_sprint_health_score, pace_score_eq m.completion_pct s e now hse]
    · rw [if_pos hcond]
      exact round1_ofNat 25
    · rw [if_neg (by linarith [hcond.2]), if_pos hcond.1]
      exact round1_ofNat 20
    · rw [if_neg (by linarith [hcond.2]), if_neg (by linarith [hcond.2]), if_pos hcond.1]
      exact round1_ofNat 15
    · rw [if_neg (by linarith [hcond.2]), if_neg (by linarith [hcond.2]),
        if_neg (by linarith [hcond.2]), if_pos hcond.1]
      exact round1_ofNat 10
    · rw [if_neg (by linarith [hcond]), if_neg (by linarith [hcond]),
        if_neg (by linarith [hcond]), if_neg (by linarith [hcond])]
      exact round1_ofNat 5
  · intro se now
    cases se <;>
      simpa [calculate_sprint_health_score, pace_score] using round1_ofNat 15
  · intro ss now
    cases ss <;>
      simpa [calculate_sprint_health_score, pace_score] using round1_ofNat 15

theorem claim6_witness :
    (calculate_sprint_health_score
      ⟨⟨10, 6, 2, 2, 0, 0⟩, ⟨34, 21, 8, 5⟩, 50, [], [], [], []⟩
      ⟨[], [], [], [], [], []⟩ (some 0) (some 1209600) 604800).breakdown.pace = 20 := by
  have h := ((claim6_pace_brackets
    ⟨⟨10, 6, 2, 2, 0, 0⟩, ⟨34, 21, 8, 5⟩, 50, [], [], [], []⟩
    ⟨[], [], [], [], [], []⟩).1 0 1209600 604800 (by omega)).2.1
  apply h
  constructor <;> norm_num

lemma pace_score_mem (cp : ℚ) (ss se : Option ℤ) (now : ℤ) :
    pace_score cp ss se now = 25 ∨ pace_score cp ss se now = 20 ∨
      pace_score cp ss se now = 15 ∨ pace_score cp ss se now = 10 ∨
      pace_score cp ss se now = 5 := by
  cases ss with
  | none => cases se <;> simp [pace_score]
  | some s =>
    cases se with
    | none => simp [pace_score]
    | some e =>
      simp only [pace_score]
      split_ifs <;> tauto

lemma blocked_score_mem (n : ℕ) :
    blocked_score n = 15 ∨ blocked_score n = 10 ∨ blocked_score n = 5 ∨ blocked_score n = 0 := by
  unfold blocked_score
  split_ifs <;> tauto

lemma risk_score_mem (n : ℕ) :
    risk_score n = 15 ∨ risk_score n = 10 ∨ risk_score n = 5 ∨ risk_score n = 0 := by
  unfold risk_score
  split_ifs <;> tauto

lemma work_distribution_score_mem (t d : ℕ) :
    work_distribution_score t d = 5 ∨ work_distribution_score t d = 10 ∨
      work_distribution_score t d = 15 := by
  unfold work_distribution_score
  split_ifs <;> tauto

/-- Claim C1 counterexample: with `completion_pct = 1` the completion
sub-score is 0.3, the unrounded total is 50.3, and the returned score is
`round(50.3) = 50`, so the five breakdown components sum to 50.3, not to
the returned score. -/
theorem claim1_counterexample :
    (calculate_sprint_health_score ⟨⟨1, 0, 0, 0, 0, 0⟩, ⟨0, 0, 0, 0⟩, 1, [], [], [], []⟩
        ⟨[], [], [], [], [], []⟩ none none 0).breakdown.completion +
      (calculate_sprint_health_score ⟨⟨1, 0, 0, 0, 0, 0⟩, ⟨0, 0, 0, 0⟩, 1, [], [], [], []⟩
        ⟨[], [], [], [], [], []⟩ none none 0).breakdown.pace +
      (calculate_sprint_health_score ⟨⟨1, 0, 0, 0, 0, 0⟩, ⟨0, 0, 0, 0⟩, 1, [], [], [], []⟩
        ⟨[], [], [], [], [], []⟩ none none 0).breakdown.blockers +
      (calculate_sprint_health_score ⟨⟨1, 0, 0, 0, 0, 0⟩, ⟨0, 0, 0, 0⟩, 1, [], [], [], []⟩
        ⟨[], [], [], [], [], []⟩ none none 0).breakdown.risks +
      (calculate_sprint_health_score ⟨⟨1, 0, 0, 0, 0, 0⟩, ⟨0, 0, 0, 0⟩, 1, [], [], [], []⟩
        ⟨[], [], [], [], [], []⟩ none none 0).breakdown.velocity ≠
    (((calculate_sprint_health_score ⟨⟨1, 0, 0, 0, 0, 0⟩, ⟨0, 0, 0, 0⟩, 1, [], [], [], []⟩
        ⟨[], [], [], [], [], []⟩ none none 0).score : ℤ) : ℚ) := by
  norm_num [calculate_sprint_health_score, pace_score, blocked_score, risk_score,
    work_distribution_score, round1, pyRound, pyFloor_eq_floor]

/-- Claim C1 as amended: the health score is an integer in [0, 100] and each
breakdown component is at most its stated maximum, for every metrics and
risks record; and for metrics with a non-negative completion percentage the
five breakdown components sum to the returned score up to the rounding
slack, within 11/20 (exact equality fails in general because the total is
rounded to an integer while the completion component is rounded to one
decimal). -/
theorem claim1_amended (m : Metrics) (r : Risks) (ss se : Option ℤ) (now : ℤ) :
    (0 ≤ (calculate_sprint_health_score m r ss se now).score ∧
      (calculate_sprint_health_score m r ss se now).score ≤ 100) ∧
    ((calculate_sprint_health_score m r ss se now).breakdown.completion ≤ 30 ∧
      (calculate_sprint_health_score m r ss se now).breakdown.pace ≤ 25 ∧
      (calculate_sprint_health_score m r ss se now).breakdown.blockers ≤ 15 ∧
      (calculate_sprint_health_score m r ss se now).breakdown.risks ≤ 15 ∧
      (calculate_sprint_health_score m r ss se now).breakdown.velocity ≤ 15) ∧
    (0 ≤ m.completion_pct →
      |(calculate_sprint_health_score m r ss se now).breakdown.completion +
          (calculate_sprint_health_score m r ss se now).breakdown.pace +
          (calculate_sprint_health_score m r ss se now).breakdown.blockers +
          (calculate_sprint_health_score m r ss se now).breakdown.risks +
          (calculate_sprint_health_score m r ss se now).breakdown.velocity -
          (((calculate_sprint_health_score m r ss se now).score : ℤ) : ℚ)| ≤ 11/20) := by
  have hps : round1 (pace_score m.completion_pct ss se now) =
      pace_score m.completion_pct ss se now ∧
      5 ≤ pace_score m.completion_pct ss se now ∧
      pace_score m.completion_pct ss se now ≤ 25 := by
    rcases pace_score_mem m.completion_pct ss se now with h | h | h | h | h <;> rw [h] <;>
      exact ⟨round1_ofNat _, by norm_num, by norm_num⟩
  have hbs : round1 (blocked_score r.blocked_items.length) =
      blocked_score r.blocked_items.length ∧
      0 ≤ blocked_score r.blocked_items.length ∧ blocked_score r.blocked_items.length ≤ 15 := by
    rcases blocked_score_mem r.blocked_items.length with h | h | h | h <;> rw [h] <;>
      refine ⟨round1_ofNat _, by norm_num, by norm_num⟩
  have hrs : round1 (risk_score (r.stale_in_progress.length +
        (r.sprint_goal_risk.filter (fun x => x.severity == "critical")).length)) =
      risk_score (r.stale_in_progress.length +
        (r.sprint_goal_risk.filter (fun x => x.severity == "critical")).length) ∧
      0 ≤ risk_score (r.stale_in_progress.length +
        (r.sprint_goal_risk.filter (fun x => x.severity == "critical")).length) ∧
      risk_score (r.stale_in_progress.length +
        (r.sprint_goal_risk.filter (fun x => x.severity == "critical")).length) ≤ 15 := by
    rcases risk_score_mem (r.stale_in_progress.length +
        (r.sprint_goal_risk.filter (fun x => x.severity == "critical")).length)
      with h | h | h | h <;> rw [h] <;>
      refine ⟨round1_ofNat _, by norm_num, by norm_num⟩
  have hws : round1 (work_distribution_score m.counts.total m.counts.done) =
      work_distribution_score m.counts.total m.counts.done ∧
      5 ≤ work_distribution_score m.counts.total m.counts.done ∧
      work_distribution_score m.counts.total m.counts.done ≤ 15 := by
    rcases work_distribution_score_mem m.counts.total m.counts.done with h | h | h <;> rw [h] <;>
      exact ⟨round1_ofNat _, by norm_num, by norm_num⟩
  have hCle : min 30 (m.completion_pct / 100 * 30) ≤ 30 := min_le_left _ _
  refine ⟨⟨?_, ?_⟩, ⟨?_, ?_, ?_, ?_, ?_⟩, ?_⟩ <;>
    simp only [calculate_sprint_health_score]
  · exact le_min (by norm_num) (le_max_left 0 _)
  · exact min_le_left _ _
  · exact_mod_cast round1_le_of_le (n := 30) (by exact_mod_cast hCle)
  · rw [hps.1]; exact hps.2.2
  · rw [hbs.1]; exact hbs.2.2
  · rw [hrs.1]; exact hrs.2.2
  · rw [hws.1]; exact hws.2.2
  · intro h0
    have hC0 : 0 ≤ min 30 (m.completion_pct / 100 * 30) :=
      le_min (by norm_num) (mul_nonneg (div_nonneg h0 (by norm_num)) (by norm_num))
    set C := min 30 (m.completion_pct / 100 * 30) with hCdef
    set ps := pace_score m.completion_pct ss se now with hpsdef
    set bs := blocked_score r.blocked_items.length with hbsdef
    set rs := risk_score (r.stale_in_progress.length +
      (r.sprint_goal_risk.filter (fun x => x.severity == "critical")).length) with hrsdef
    set ws := work_distribution_score m.counts.total m.counts.done with hwsdef
    have hsum0 : (0 : ℚ) ≤ C + ps + bs + rs + ws := by
      have := hps.2.1; have := hbs.2.1; have := hrs.2.1; have := hws.2.1
      linarith
    have hsum100 : C + ps + bs + rs + ws ≤ 100 := by
      have := hps.2.2; have := hbs.2.2; have := hrs.2.2; have := hws.2.2
      linarith
    have hpr0 : (0 : ℤ) ≤ pyRound (C + ps + bs + rs + ws) :=
      le_pyRound_of_le (by exact_mod_cast hsum0)
    have hpr100 : pyRound (C + ps + bs + rs + ws) ≤ (100 : ℤ) :=
      pyRound_le_of_le (by exact_mod_cast hsum100)
    rw [max_eq_right hpr0, min_eq_right hpr100, hps.1, hbs.1, hrs.1, hws.1]
    have hr1 := round1_bounds C
    have hr2 := pyRound_bounds (C + ps + bs + rs + ws)
    rw [abs_le]
    constructor <;> linarith [hr1.1, hr1.2, hr2.1, hr2.2]

theorem claim1_witness :
    |(calculate_sprint_health_score ⟨⟨4, 2, 1, 1, 0, 0⟩, ⟨10, 5, 3, 2⟩, 50, [], [], [], []⟩
        ⟨[], [], [], [], [], []⟩ none none 0).breakdown.completion +
      (calculate_sprint_health_score ⟨⟨4, 2, 1, 1, 0, 0⟩, ⟨10, 5, 3, 2⟩, 50, [], [], [], []⟩
        ⟨[], [], [], [], [], []⟩ none none 0).breakdown.pace +
      (calculate_sprint_health_score ⟨⟨4, 2, 1, 1, 0, 0⟩, ⟨10, 5, 3, 2⟩, 50, [], [], [], []⟩
        ⟨[], [], [], [], [], []⟩ none none 0).breakdown.blockers +
      (calculate_sprint_health_score ⟨⟨4, 2, 1, 1, 0, 0⟩, ⟨10, 5, 3, 2⟩, 50, [], [], [], []⟩
        ⟨[], [], [], [], [], []⟩ none none 0).breakdown.risks +
      (calculate_sprint_health_score ⟨⟨4, 2, 1, 1, 0, 0⟩, ⟨10, 5, 3, 2⟩, 50, [], [], [], []⟩
        ⟨[], [], [], [], [], []⟩ none none 0).breakdown.velocity -
      (((calculate_sprint_health_score ⟨⟨4, 2, 1, 1, 0, 0⟩, ⟨10, 5, 3, 2⟩, 50, [], [], [], []⟩
        ⟨[], [], [], [], [], []⟩ none none 0).score : ℤ) : ℚ)| ≤ 11/20 :=
  (claim1_amended ⟨⟨4, 2, 1, 1, 0, 0⟩, ⟨10, 5, 3, 2⟩, 50, [], [], [], []⟩
    ⟨[], [], [], [], [], []⟩ none none 0).2.2 (by norm_num)

lemma risks_loop_sprint_goal_high (dl now : ℤ) :
    ∀ (issues : List Issue) (r : Risks), risks_loop dl now issues = some r →
      ∀ it ∈ r.sprint_goal_risk, it.severity = "high"
  | [], r => by
    intro hr it hit
    simp only [risks_loop, Option.some.injEq] at hr
    subst hr
    simp at hit
  | .noneEntry :: rest, r => by
    intro hr
    exact risks_loop_sprint_goal_high dl now rest r hr
  | .fieldsNone :: rest, r => by
    intro hr
    simp [risks_loop] at hr
  | .missingFields :: rest, r => by
    intro hr it hit
    simp only [risks_loop, Option.map_eq_some'] at hr
    obtain ⟨r0, hr0, hstep⟩ := hr
    subst hstep
    simp only [risk_step] at hit
    split_ifs at hit with hc
    · rcases List.mem_cons.mp hit with h | h
      · rw [h]
      · exact risks_loop_sprint_goal_high dl now rest r0 hr0 it h
    · exact risks_loop_sprint_goal_high dl now rest r0 hr0 it hit
  | .mk f :: rest, r => by
    intro hr it hit
    simp only [risks_loop, Option.map_eq_some'] at hr
    obtain ⟨r0, hr0, hstep⟩ := hr
    subst hstep
    simp only [risk_step] at hit
    split_ifs at hit with hc
    · rcases List.mem_cons.mp hit with h | h
      · rw [h]
      · exact risks_loop_sprint_goal_high dl now rest r0 hr0 it h
    · exact risks_loop_sprint_goal_high dl now rest r0 hr0 it hit

/-- Claim C10: every entry `detect_risks` puts in `sprint_goal_risk` has
severity "high" (never "critical"), so the critical-sprint-goal count in
`calculate_sprint_health_score` is zero and the risk-mitigation sub-score
depends only on the number of stale in-progress entries. -/
theorem claim10_sprint_goal_severity (issues : List Issue) (ss se : Option ℤ) (now : ℤ)
    (r : Risks) (m : Metrics) (hr : detect_risks issues ss se now = some r) :
    (∀ it ∈ r.sprint_goal_risk, it.severity = "high") ∧
    (calculate_sprint_health_score m r ss se now).breakdown.risks =
      (if r.stale_in_progress.length = 0 then (15 : ℚ)
       else if r.stale_in_progress.length ≤ 2 then 10
       else if r.stale_in_progress.length ≤ 5 then 5
       else 0) := by
  rw [detect_risks] at hr
  have hhigh := risks_loop_sprint_goal_high (sprint_days_left se now) now issues r hr
  refine ⟨hhigh, ?_⟩
  have hcrit : (r.sprint_goal_risk.filter (fun x => x.severity == "critical")).length = 0 := by
    rw [List.length_eq_zero, List.filter_eq_nil_iff]
    intro a ha
    simp [hhigh a ha]
  have hr1 : round1 (risk_score r.stale_in_progress.length) =
      risk_score r.stale_in_progress.length := by
    rcases risk_score_mem r.stale_in_progress.length with h | h | h | h <;> rw [h] <;>
      exact round1_ofNat _
  simp only [calculate_sprint_health_score, hcrit, Nat.add_zero]
  rw [hr1, risk_score]

theorem claim10_witness :
    (calculate_sprint_health_score ⟨⟨1, 0, 0, 0, 0, 0⟩, ⟨0, 0, 0, 0⟩, 0, [], [], [], []⟩
      ⟨[], [], [], [], [], []⟩ none (some 0) 0).breakdown.risks = 15 := by
  have h := (claim10_sprint_goal_severity [.mk fields_done_high] none (some 0) 0
    ⟨[], [], [], [], [], []⟩ ⟨⟨1, 0, 0, 0, 0, 0⟩, ⟨0, 0, 0, 0⟩, 0, [], [], [], []⟩
    (by decide)).2
  rw [h]
  norm_num

lemma match_score_eq (all_kw ticket_kw : List String) (t : Ticket) :
    match_score all_kw ticket_kw t =
      (if t.description ≠ "" then
        5 * all_kw.countP (fun kw => str_contains (lower_string t.description) kw &&
            ticket_kw.contains kw) +
        3 * all_kw.countP (fun kw => str_contains (lower_string t.description) kw &&
            !ticket_kw.contains kw)
      else 0) +
      2 * all_kw.countP (fun kw => str_contains (lower_string t.summary) kw &&
          ticket_kw.contains kw) +
      1 * all_kw.countP (fun kw => str_contains (lower_string t.summary) kw &&
          !ticket_kw.contains kw) +
      4 * t.labels.countP (fun l => all_kw.contains (lower_string l)) +
      4 * t.components.countP (fun c => all_kw.contains (lower_string c)) := by
  unfold match_score description_score summary_score labels_score components_score
  rw [foldl_add_weighted (fun kw => str_contains (lower_string t.summary) kw)
      (fun kw => ticket_kw.contains kw) 2 1 all_kw 0,
    foldl_add_const (fun l => all_kw.contains (lower_string l)) 4 t.labels 0,
    foldl_add_const (fun c => all_kw.contains (lower_string c)) 4 t.components 0]
  by_cases hd : t.description ≠ ""
  · rw [if_pos hd, if_pos hd,
      foldl_add_weighted (fun kw => str_contains (lower_string t.description) kw)
        (fun kw => ticket_kw.contains kw) 5 3 all_kw 0]
    ring
  · rw [if_neg hd, if_neg hd]
    ring

/-- Claim C8: every candidate's `match_score` is the weighted keyword sum
(5/3 per description keyword by origin, 2/1 per summary keyword, 4 per
matching label or component), every returned entry carries at most 3 match
reasons and a positive score equal to that sum, and the output is sorted by
descending score and truncated to at most 10 entries. -/
theorem claim8_scoring (all_kw ticket_kw : List String) (cands : List Ticket) :
    (∀ t : Ticket, match_score all_kw ticket_kw t =
      (if t.description ≠ "" then
        5 * all_kw.countP (fun kw => str_contains (lower_string t.description) kw &&
            ticket_kw.contains kw) +
        3 * all_kw.countP (fun kw => str_contains (lower_string t.description) kw &&
            !ticket_kw.contains kw)
      else 0) +
      2 * all_kw.countP (fun kw => str_contains (lower_string t.summary) kw &&
          ticket_kw.contains kw) +
      1 * all_kw.countP (fun kw => str_contains (lower_string t.summary) kw &&
          !ticket_kw.contains kw) +
      4 * t.labels.countP (fun l => all_kw.contains (lower_string l)) +
      4 * t.components.countP (fun c => all_kw.contains (lower_string c))) ∧
    (∀ e ∈ pattern_match_core all_kw ticket_kw cands,
      e.match_reasons.length ≤ 3 ∧ 0 < e.match_score ∧
        e.match_score = match_score all_kw ticket_kw e.ticket) ∧
    (pattern_match_core all_kw ticket_kw cands).Sorted score_ge ∧
    (pattern_match_core all_kw ticket_kw cands).length ≤ 10 := by
  refine ⟨match_score_eq all_kw ticket_kw, ?_, ?_, ?_⟩
  · intro e he
    have he2 : e ∈ (scored_candidates all_kw ticket_kw cands).insertionSort score_ge :=
      List.take_subset 10 _ he
    have he3 : e ∈ scored_candidates all_kw ticket_kw cands :=
      (List.perm_insertionSort score_ge _).mem_iff.mp he2
    obtain ⟨t, _, hmk⟩ := List.mem_filterMap.mp he3
    by_cases h0 : 0 < match_score all_kw ticket_kw t
    · rw [if_pos h0, Option.some.injEq] at hmk
      subst hmk
      exact ⟨List.length_take_le 3 _, h0, rfl⟩
    · rw [if_neg h0] at hmk
      exact absurd hmk (by simp)
  · exact List.Pairwise.sublist (List.take_sublist 10 _)
      (List.sorted_insertionSort score_ge (scored_candidates all_kw ticket_kw cands))
  · exact List.length_take_le 10 _

/-- Concrete ticket matched by the keyword set below. -/
def ticket_auth : Ticket :=
  ⟨"T-1", "Fix auth flow", "auth and login flows are broken", ["login"], []⟩

theorem claim8_witness : match_score ["auth", "login"] ["auth"] ticket_auth = 14 := by
  have h := (claim8_scoring ["auth", "login"] ["auth"] [ticket_auth]).1 ticket_auth
  rw [h]
  decide

/-- Projection of a scored candidate to its observable ranking data
(ticket identity and score), discarding the reason strings whose choice of
description snippet depends on the keyword-set iteration order. -/
def strip_reasons (e : ScoredTicket) : Ticket × ℕ := (e.ticket, e.match_score)

/-- Descending-score order on the stripped entries. -/
def pair_score_ge (a b : Ticket × ℕ) : Prop := b.2 ≤ a.2

instance : DecidableRel pair_score_ge := fun a b => by
  unfold pair_score_ge; infer_instance

lemma contains_perm {l l' : List String} (hp : l.Perm l') (x : String) :
    l.contains x = l'.contains x := by
  simp [hp.mem_iff]

lemma match_score_perm {all_kw all_kw' : List String} (hp : all_kw.Perm all_kw')
    (ticket_kw : List String) (t : Ticket) :
    match_score all_kw ticket_kw t = match_score all_kw' ticket_kw t := by
  rw [match_score_eq, match_score_eq, hp.countP_eq, hp.countP_eq, hp.countP_eq, hp.countP_eq]
  have hl : ∀ l : List String,
      l.countP (fun x => all_kw.contains (lower_string x)) =
        l.countP (fun x => all_kw'.contains (lower_string x)) := by
    intro l
    induction l with
    | nil => rfl
    | cons a as ih => simp [List.countP_cons, ih, hp.mem_iff]
  rw [hl t.labels, hl t.components]

lemma strip_scored_perm {all_kw all_kw' : List String} (hp : all_kw.Perm all_kw')
    (ticket_kw : List String) (cands : List Ticket) :
    (scored_candidates all_kw ticket_kw cands).map strip_reasons =
      (scored_candidates all_kw' ticket_kw cands).map strip_reasons := by
  unfold scored_candidates
  induction cands with
  | nil => rfl
  | cons t ts ih =>
    have hms := match_score_perm hp ticket_kw t
    simp only [List.filterMap_cons]
    by_cases h0 : 0 < match_score all_kw' ticket_kw t
    · rw [if_pos (hms ▸ h0), if_pos h0]
      simp [strip_reasons, hms, ih]
    · rw [if_neg (hms ▸ h0), if_neg h0]
      exact ih

/-- Claim C9: the observable ranking of `pattern_match_tickets` is
deterministic — it does not depend on the iteration order of the keyword
set (scores and output order are invariant under permuting the keyword
list), and candidates of equal score appear in their original input
order (the descending sort is stable). -/
theorem claim9_determinism (all_kw all_kw' ticket_kw : List String) (cands : List Ticket)
    (hp : all_kw.Perm all_kw') :
    (pattern_match_core all_kw ticket_kw cands).map strip_reasons =
      (pattern_match_core all_kw' ticket_kw cands).map strip_reasons ∧
    (∀ s : ℕ,
      ((scored_candidates all_kw ticket_kw cands).insertionSort score_ge).filter
          (fun e => e.match_score == s) =
        (scored_candidates all_kw ticket_kw cands).filter (fun e => e.match_score == s)) := by
  constructor
  · unfold pattern_match_core
    rw [List.map_take, List.map_take]
    congr 1
    rw [map_insertionSort strip_reasons score_ge pair_score_ge (fun a b => Iff.rfl),
      map_insertionSort strip_reasons score_ge pair_score_ge (fun a b => Iff.rfl),
      strip_scored_perm hp]
  · intro s
    exact filter_insertionSort_key ScoredTicket.match_score score_ge (fun a b => Iff.rfl)
      (fun e => e.match_score == s) s (fun x => beq_iff_eq) _

theorem claim9_witness :
    (pattern_match_core ["auth", "login"] ["auth"] [ticket_auth]).map strip_reasons =
      (pattern_match_core ["login", "auth"] ["auth"] [ticket_auth]).map strip_reasons :=
  (claim9_determinism ["auth", "login"] ["login", "auth"] ["auth"] [ticket_auth]
    (by decide)).1
